import Mathlib

/-!
Formal model of the Spatial Prisoner's Dilemma engine (agent.py / model.py):
the payoff lookup, neighbor enumeration on a toroidal grid, per-agent scoring
and imitation, the per-tick schedule for synchronous and asynchronous update
modes, construction/validation, and the aggregate metrics.

Payoff values and scores live in an arbitrary linear ordered commutative ring
`α` (the spec allows arbitrary real payoff tables; concrete instances below
use `ℤ`, matching the integer default table of the source).  Probabilities
(density, cooperation rate, mutation rate and the uniform draws compared
against them) are rationals.  Randomness (activation order, mutation draws,
placement shuffles, Bernoulli draws) is passed in explicitly as parameters, so
every definition is executable.
-/

namespace SpatialPD

/-- The two strategies of `agent.py` (`Strategy.COOPERATE` / `Strategy.DEFECT`). -/
inductive Strategy where
  | cooperate
  | defect
deriving DecidableEq, Repr

section Engine

variable {α : Type} [LinearOrderedCommRing α]

/-- A Python-dict payoff matrix: association list from keys such as "CC" to
a list of the two payoffs `[own, opponent]`, mirroring `model.payoff_matrix`. -/
abbrev PayoffDict (α : Type) : Type := List (String × List α)

/-- Dictionary lookup, first matching key wins (as in a Python dict). -/
def dictLookup (pm : PayoffDict α) (k : String) : Option (List α) :=
  match pm with
  | [] => none
  | (k', v) :: rest => if k' = k then some v else dictLookup rest k

/-- `d[k]` with a KeyError when the key is absent. -/
def dictGetE (pm : PayoffDict α) (k : String) : Except String (List α) :=
  match dictLookup pm k with
  | some v => Except.ok v
  | none => Except.error ("KeyError: " ++ k)

/-- `l[i]` with an IndexError when out of range. -/
def listGetE (l : List α) (i : ℕ) : Except String α :=
  match l.get? i with
  | some v => Except.ok v
  | none => Except.error "list index out of range"

/-- The dict key consulted by `play_game` for an ordered strategy pair. -/
def payoffKey : Strategy → Strategy → String
  | Strategy.cooperate, Strategy.cooperate => "CC"
  | Strategy.cooperate, Strategy.defect => "CD"
  | Strategy.defect, Strategy.cooperate => "DC"
  | Strategy.defect, Strategy.defect => "DD"

/-- The default payoff matrix installed by `SpatialPDModel.__init__` when
`payoff_matrix=None`. -/
def defaultPayoffMatrix : PayoffDict α :=
  [("CC", [3, 3]), ("CD", [0, 5]), ("DC", [5, 0]), ("DD", [1, 1])]

/-- The body of the `try` block of `PDAgent.play_game`: the `other` argument is
`none` when `other_agent` is not a `PDAgent` (the `raise ValueError` branch),
otherwise the opponent's strategy; dictionary and index errors propagate. -/
def play_gameE (pm : PayoffDict α) (myStrategy : Strategy) (other : Option Strategy) :
    Except String (α × α) :=
  match other with
  | none => Except.error "other_agent harus berupa PDAgent"
  | some otherStrategy =>
    match dictGetE pm (payoffKey myStrategy otherStrategy) with
    | Except.error e => Except.error e
    | Except.ok entry =>
      match listGetE entry 0 with
      | Except.error e => Except.error e
      | Except.ok myScore =>
        match listGetE entry 1 with
        | Except.error e => Except.error e
        | Except.ok otherScore => Except.ok (myScore, otherScore)

/-- `PDAgent.play_game`: the `try` body wrapped in the `except` handler that
prints the error and returns the default `(0, 0)`. -/
def play_game (pm : PayoffDict α) (myStrategy : Strategy) (other : Option Strategy) : α × α :=
  match play_gameE pm myStrategy other with
  | Except.ok v => v
  | Except.error _ => (0, 0)

/-- The mutable state of one `PDAgent`. -/
structure AgentState (α : Type) where
  unique_id : ℕ
  pos : ℕ × ℕ
  strategy : Strategy
  next_strategy : Strategy
  score : α
  total_score : α
  score_history : List α
  cooperation_count : ℕ
  defection_count : ℕ
  interactions_count : ℕ
deriving DecidableEq, Repr

/-- The state of a `SpatialPDModel`: fixed configuration plus the scheduler's
agent list in insertion (unique-id) order.  The grid content is recovered from
the agents' `pos` fields (one agent per occupied cell). -/
structure ModelState (α : Type) where
  width : ℕ
  height : ℕ
  neighborhood_type : String
  update_type : String
  mutation_rate : ℚ
  payoff_matrix : PayoffDict α
  agents : List (AgentState α)
deriving Repr

/-- The eight Moore offsets in mesa's neighborhood scan order
(`dy` outer loop from -1 to 1, `dx` inner, center skipped). -/
def mooreOffsets : List (ℤ × ℤ) :=
  [(-1, -1), (0, -1), (1, -1), (-1, 0), (1, 0), (-1, 1), (0, 1), (1, 1)]

/-- The four Von Neumann offsets in mesa's scan order. -/
def vonNeumannOffsets : List (ℤ × ℤ) :=
  [(0, -1), (-1, 0), (1, 0), (0, 1)]

/-- Wrap a (possibly negative) coordinate pair onto the torus. -/
def torusWrap (W H : ℕ) (x y : ℤ) : ℕ × ℕ :=
  ((x % (W : ℤ)).toNat, (y % (H : ℤ)).toNat)

/-- Structural worker for `dedupFirst` (fuel bounds the recursion depth). -/
def dedupFirstAux : ℕ → List (ℕ × ℕ) → List (ℕ × ℕ)
  | 0, _ => []
  | _ + 1, [] => []
  | fuel + 1, p :: rest => p :: dedupFirstAux fuel (rest.filter (fun q => q ≠ p))

/-- Remove duplicates keeping the first occurrence of each element (mesa
deduplicates wrapped neighborhood coordinates on small grids). -/
def dedupFirst (l : List (ℕ × ℕ)) : List (ℕ × ℕ) :=
  dedupFirstAux l.length l

/-- The (deduplicated, order-preserving) neighbor cells of a position:
`mesa.space.MultiGrid.get_neighborhood` with torus wraparound, Moore when the
model's `neighborhood_type` equals "moore", else Von Neumann. -/
def neighborCells (W H : ℕ) (neighborhoodType : String) (pos : ℕ × ℕ) : List (ℕ × ℕ) :=
  let offsets := if neighborhoodType = "moore" then mooreOffsets else vonNeumannOffsets
  dedupFirst (offsets.map (fun o => torusWrap W H ((pos.1 : ℤ) + o.1) ((pos.2 : ℤ) + o.2)))

/-- The agents occupying a given cell, in scheduler (insertion) order. -/
def agentsAt (agents : List (AgentState α)) (c : ℕ × ℕ) : List (AgentState α) :=
  agents.filter (fun a => a.pos = c)

/-- `PDAgent.get_neighbors`: the agents found in the neighborhood cells of the
agent's position, in cell-scan order. -/
def get_neighbors (m : ModelState α) (a : AgentState α) : List (AgentState α) :=
  ((neighborCells m.width m.height m.neighborhood_type a.pos).map (agentsAt m.agents)).flatten

/-- The score accumulated by the loop of `interact_with_neighbors`: starting
from the reset value 0, add the agent's own side of `play_game` against every
neighbor in order. -/
def interactScore (pm : PayoffDict α) (a : AgentState α) (neighbors : List (AgentState α)) : α :=
  neighbors.foldl (fun acc n => acc + (play_game pm a.strategy (some n.strategy)).1) 0

/-- `PDAgent.interact_with_neighbors` for the agent at index `i` of the
scheduler list: reset its step score to 0, accumulate `play_game` payoffs over
its neighbors, and update its lifetime statistics; no other agent is touched. -/
def interact_with_neighbors (m : ModelState α) (i : ℕ) : ModelState α :=
  match m.agents.get? i with
  | none => m
  | some a =>
    let ns := get_neighbors m a
    let sc := interactScore m.payoff_matrix a ns
    let a' : AgentState α :=
      { a with
        score := sc,
        cooperation_count :=
          a.cooperation_count + (if a.strategy = Strategy.cooperate then ns.length else 0),
        defection_count :=
          a.defection_count + (if a.strategy = Strategy.defect then ns.length else 0),
        interactions_count := a.interactions_count + ns.length,
        total_score := a.total_score + sc,
        score_history := a.score_history ++ [sc] }
    { m with agents := m.agents.set i a' }

/-- The best-neighbor scan of `determine_next_strategy`: fold over the neighbor
list keeping `(best_score, best_strategy)`, starting from the agent's own score
and strategy, replacing only on strictly greater score. -/
def bestFold (a : AgentState α) (neighbors : List (AgentState α)) : α × Strategy :=
  neighbors.foldl
    (fun p n => if n.score > p.1 then (n.score, n.strategy) else p)
    (a.score, a.strategy)

/-- `PDAgent.determine_next_strategy` as a function of the mutation draw: `r`
is the uniform draw compared against the mutation rate and `mutChoice` the
uniformly random strategy used when mutation fires. -/
def determine_next_strategy (mutationRate r : ℚ) (mutChoice : Strategy)
    (a : AgentState α) (neighbors : List (AgentState α)) : Strategy :=
  if neighbors = [] then a.strategy
  else
    let best := bestFold a neighbors
    if mutationRate > 0 then
      if r < mutationRate then mutChoice else best.2
    else best.2

/-- The `determine_next_strategy` call inside `PDAgent.step`, acting on the
agent at index `i`: store the decision in `next_strategy` only. -/
def determinePhase (m : ModelState α) (r : ℚ) (mutChoice : Strategy) (i : ℕ) : ModelState α :=
  match m.agents.get? i with
  | none => m
  | some a =>
    let ns := get_neighbors m a
    let a' : AgentState α :=
      { a with next_strategy := determine_next_strategy m.mutation_rate r mutChoice a ns }
    { m with agents := m.agents.set i a' }

/-- `PDAgent.update_strategy`: commit the pending strategy. -/
def update_strategy (a : AgentState α) : AgentState α :=
  { a with strategy := a.next_strategy }

/-- Commit the pending strategy of the single agent at index `i` (the
immediate `update_strategy` call of the asynchronous branch of `PDAgent.step`). -/
def commitAgent (m : ModelState α) (i : ℕ) : ModelState α :=
  match m.agents.get? i with
  | none => m
  | some a => { m with agents := m.agents.set i (update_strategy a) }

/-- `PDAgent.step` for the agent at index `i`: interact with neighbors, decide
the next strategy from the current (possibly partially updated) model state,
and, only in asynchronous mode, commit immediately. -/
def agent_step (m : ModelState α) (rnd : ℕ → ℚ × Strategy) (i : ℕ) : ModelState α :=
  let m1 := interact_with_neighbors m i
  let m2 := determinePhase m1 (rnd i).1 (rnd i).2 i
  if m.update_type = "asynchronous" then commitAgent m2 i else m2

/-- `self.schedule.step()`: run `PDAgent.step` for every agent, one at a time,
in the activation order `order` (insertion order under
`SimultaneousActivation`, a fresh random permutation under `RandomActivation`). -/
def schedule_step (m : ModelState α) (rnd : ℕ → ℚ × Strategy) (order : List ℕ) : ModelState α :=
  order.foldl (fun acc i => agent_step acc rnd i) m

/-- The synchronous commit loop of `SpatialPDModel.step`: every agent's
strategy becomes its pending strategy. -/
def commitAll (m : ModelState α) : ModelState α :=
  { m with agents := m.agents.map update_strategy }

/-- `SpatialPDModel.step`: one tick — run the scheduler over all agents, then,
in synchronous mode only, commit every pending strategy. -/
def model_step (m : ModelState α) (rnd : ℕ → ℚ × Strategy) (order : List ℕ) : ModelState α :=
  let m1 := schedule_step m rnd order
  if m.update_type = "synchronous" then commitAll m1 else m1

/-- The strategy configuration of the model, in scheduler order. -/
def strategyProfile (m : ModelState α) : List Strategy :=
  m.agents.map (fun a => a.strategy)

/-- `SpatialPDModel.get_cooperation_clustering`: loop over all cooperators,
adding `cooperating neighbors / total neighbors` for those with at least one
neighbor, then divide the total by the number of all cooperators. -/
def get_cooperation_clustering (m : ModelState α) : ℚ :=
  let cooperators := m.agents.filter (fun a => a.strategy = Strategy.cooperate)
  if cooperators.length = 0 then 0
  else
    let total := cooperators.foldl
      (fun acc a =>
        let ns := get_neighbors m a
        if ns.length > 0 then
          acc + (((ns.filter (fun n => n.strategy = Strategy.cooperate)).length : ℚ) /
            (ns.length : ℚ))
        else acc) 0
    total / (cooperators.length : ℚ)

/-- Truncation toward zero, the semantics of Python's `int()` on a float. -/
def intTrunc (q : ℚ) : ℤ :=
  if 0 ≤ q then ⌊q⌋ else -⌊-q⌋

/-- `num_agents = int(total_cells * density)` in `_create_agents`. -/
def num_agents (W H : ℕ) (density : ℚ) : ℕ :=
  (intTrunc ((W : ℚ) * (H : ℚ) * density)).toNat

/-- The per-agent initial strategy draw of `_create_agents`:
cooperate iff the uniform draw is below the initial cooperation rate. -/
def bernoulliStrategy (rate draw : ℚ) : Strategy :=
  if draw < rate then Strategy.cooperate else Strategy.defect

/-- A freshly constructed `PDAgent` (`__init__`): pending strategy equals the
initial strategy, all scores and statistics zero. -/
def mkAgent (id : ℕ) (p : ℕ × ℕ) (s : Strategy) : AgentState α :=
  { unique_id := id, pos := p, strategy := s, next_strategy := s,
    score := 0, total_score := 0, score_history := [],
    cooperation_count := 0, defection_count := 0, interactions_count := 0 }

/-- The placement loop of `_create_agents`: one new agent per selected
position, with `agent_id_counter` passed along and a fresh Bernoulli draw per
agent. -/
def placeAgents (rate : ℚ) (draws : ℕ → ℚ) : ℕ → List (ℕ × ℕ) → List (AgentState α)
  | _, [] => []
  | counter, p :: rest =>
    mkAgent counter p (bernoulliStrategy rate (draws counter)) ::
      placeAgents rate draws (counter + 1) rest

/-- `SpatialPDModel._create_agents`: take the first `num_agents` cells of the
shuffled position list and place one new agent on each, with ids counting from
0 and strategies drawn per-agent from `draws` at the configured rate. -/
def create_agents (W H : ℕ) (density rate : ℚ)
    (shuffledPositions : List (ℕ × ℕ)) (draws : ℕ → ℚ) : List (AgentState α) :=
  placeAgents rate draws 0 (shuffledPositions.take (num_agents W H density))

/-- `SpatialPDModel._validate_payoff_matrix`: every key of CC, CD, DC, DD must
be present and map to a list of exactly two entries. -/
def validate_payoff_matrix (pm : PayoffDict α) : Except String Unit :=
  match dictLookup pm "CC" with
  | none => Except.error "Payoff matrix harus memiliki key CC"
  | some v =>
    if v.length ≠ 2 then Except.error "Payoff matrix CC harus berupa list dengan 2 elemen"
    else
      match dictLookup pm "CD" with
      | none => Except.error "Payoff matrix harus memiliki key CD"
      | some v =>
        if v.length ≠ 2 then Except.error "Payoff matrix CD harus berupa list dengan 2 elemen"
        else
          match dictLookup pm "DC" with
          | none => Except.error "Payoff matrix harus memiliki key DC"
          | some v =>
            if v.length ≠ 2 then
              Except.error "Payoff matrix DC harus berupa list dengan 2 elemen"
            else
              match dictLookup pm "DD" with
              | none => Except.error "Payoff matrix harus memiliki key DD"
              | some v =>
                if v.length ≠ 2 then
                  Except.error "Payoff matrix DD harus berupa list dengan 2 elemen"
                else Except.ok ()

/-- The constructor arguments of `SpatialPDModel.__init__` (width and height
as possibly non-positive integers, rates as rationals, the payoff matrix
optional as in Python). -/
structure Config (α : Type) where
  width : ℤ
  height : ℤ
  density : ℚ
  neighborhood_type : String
  update_type : String
  payoff_matrix : Option (PayoffDict α)
  mutation_rate : ℚ
  initial_cooperation_rate : ℚ

/-- `SpatialPDModel.__init__`: validate the parameters in source order, install
the default payoff matrix when none is given, validate it, and only then create
the agents (randomness enters through the pre-shuffled position list and the
per-agent Bernoulli draws). -/
def SpatialPDModel_init (c : Config α) (shuffledPositions : List (ℕ × ℕ))
    (draws : ℕ → ℚ) : Except String (ModelState α) :=
  if c.width ≤ 0 ∨ c.height ≤ 0 then Except.error "Width dan height harus positif"
  else if ¬(0 ≤ c.density ∧ c.density ≤ 1) then Except.error "Density harus antara 0 dan 1"
  else if ¬(0 ≤ c.initial_cooperation_rate ∧ c.initial_cooperation_rate ≤ 1) then
    Except.error "Initial cooperation rate harus antara 0 dan 1"
  else if ¬(0 ≤ c.mutation_rate ∧ c.mutation_rate ≤ 1) then
    Except.error "Mutation rate harus antara 0 dan 1"
  else
    let pm := c.payoff_matrix.getD defaultPayoffMatrix
    match validate_payoff_matrix pm with
    | Except.error e => Except.error e
    | Except.ok _ =>
      Except.ok
        { width := c.width.toNat,
          height := c.height.toNat,
          neighborhood_type := c.neighborhood_type,
          update_type := c.update_type,
          mutation_rate := c.mutation_rate,
          payoff_matrix := pm,
          agents := create_agents c.width.toNat c.height.toNat c.density
            c.initial_cooperation_rate shuffledPositions draws }

/-- `SpatialPDModel.set_payoff_matrix`: install the mirrored table built from
the four own-side entries, leaving everything else in the model untouched. -/
def set_payoff_matrix (m : ModelState α) (cc cd dc dd : α) : ModelState α :=
  { m with payoff_matrix :=
      [("CC", [cc, cc]), ("CD", [cd, dc]), ("DC", [dc, cd]), ("DD", [dd, dd])] }

/-- The spec's phase-separated synchronous tick, transcribed from §4.5/§5 of
the specification for comparison with the implemented tick: ScoringPhase
computes every score from the pre-tick strategy configuration, UpdatePhase
computes every pending strategy from the scores and strategies exactly as
frozen at the end of ScoringPhase, and only then CommitPhase commits every
pending strategy. -/
def spec_phase_tick (m : ModelState α) (rnd : ℕ → ℚ × Strategy) : ModelState α :=
  let scored : ModelState α :=
    { m with agents := m.agents.map (fun a =>
        { a with score := interactScore m.payoff_matrix a (get_neighbors m a) }) }
  let decided : ModelState α :=
    { scored with agents := scored.agents.enum.map (fun p =>
        let ns := get_neighbors scored p.2
        let s := determine_next_strategy m.mutation_rate (rnd p.1).1 (rnd p.1).2 p.2 ns
        { p.2 with next_strategy := s }) }
  commitAll decided

/-- The cooperator clustering coefficient exactly as the claim states it: the
mean, taken only over cooperator agents with at least one neighbor, of the
fraction of cooperating neighbors; zero-neighbor cooperators excluded from
numerator and denominator alike. -/
def clusteringPerClaim (m : ModelState α) : ℚ :=
  let eligible := (m.agents.filter (fun a => a.strategy = Strategy.cooperate)).filter
    (fun a => (get_neighbors m a).length > 0)
  if eligible.length = 0 then 0
  else
    ((eligible.map (fun a =>
      (((get_neighbors m a).filter (fun n => n.strategy = Strategy.cooperate)).length : ℚ) /
        ((get_neighbors m a).length : ℚ))).sum) / (eligible.length : ℚ)

end Engine

/-! Concrete instances used by the counterexamples and witnesses.  Payoff
values are integers (the source's default table is integer-valued), so the
kernel can evaluate every tick. -/

/-- A degenerate mutation-draw oracle: the uniform draw is 1 (mutation never
fires) and the mutation choice is cooperate.  All fixtures run with
`mutation_rate = 0`, so the oracle's values are never consulted. -/
def rnd0 : ℕ → ℚ × Strategy := fun _ => (1, Strategy.cooperate)

/-- Three agents on one row of a 3×3 torus: with Von Neumann wraparound each
is a neighbor of the other two.  Agents 0 and 1 cooperate, agent 2 defects. -/
def triangleAgents : List (AgentState ℤ) :=
  [mkAgent 0 (0, 0) Strategy.cooperate,
   mkAgent 1 (1, 0) Strategy.cooperate,
   mkAgent 2 (2, 0) Strategy.defect]

/-- The triangle fixture under synchronous update, zero mutation, default
payoffs. -/
def triangleSync : ModelState ℤ :=
  { width := 3, height := 3, neighborhood_type := "von_neumann",
    update_type := "synchronous", mutation_rate := 0,
    payoff_matrix := defaultPayoffMatrix, agents := triangleAgents }

/-- The triangle fixture under asynchronous update. -/
def triangleAsync : ModelState ℤ :=
  { triangleSync with update_type := "asynchronous" }

/-- Three cooperators on a 5×5 Moore torus: agents 0 and 1 are mutual
neighbors, agent 2 is isolated (all eight of its neighbor cells are empty). -/
def clusterAgents : List (AgentState ℤ) :=
  [mkAgent 0 (0, 0) Strategy.cooperate,
   mkAgent 1 (1, 0) Strategy.cooperate,
   mkAgent 2 (3, 3) Strategy.cooperate]

/-- The clustering fixture. -/
def clusterModel : ModelState ℤ :=
  { width := 5, height := 5, neighborhood_type := "moore",
    update_type := "synchronous", mutation_rate := 0,
    payoff_matrix := defaultPayoffMatrix, agents := clusterAgents }

/-- A 3×3 construction request with density 0.3: `int(9 * 0.3) = 2` agents,
while `round(9 * 0.3) = 3`. -/
def c4Config : Config ℤ :=
  { width := 3, height := 3, density := 3 / 10, neighborhood_type := "moore",
    update_type := "synchronous", payoff_matrix := none,
    mutation_rate := 0, initial_cooperation_rate := 0 }

/-- The nine cells of the 3×3 grid in row-major order (one concrete value of
the shuffled placement list). -/
def c4Positions : List (ℕ × ℕ) :=
  [(0, 0), (0, 1), (0, 2), (1, 0), (1, 1), (1, 2), (2, 0), (2, 1), (2, 2)]

/-- A concrete Bernoulli draw stream: every draw is 1 (all agents defect). -/
def c4Draws : ℕ → ℚ := fun _ => 1

/-- A construction request with width 0 (witness input for configuration
rejection). -/
def c7Config : Config ℤ :=
  { width := 0, height := 3, density := 1, neighborhood_type := "moore",
    update_type := "synchronous", payoff_matrix := none,
    mutation_rate := 0, initial_cooperation_rate := 1 }

/-- A cooperator with score 1 (witness input for the imitation rule). -/
def c5Agent : AgentState ℤ :=
  { mkAgent 0 (0, 0) Strategy.cooperate with score := 1 }

/-- A defecting neighbor with score 2 (witness input for the imitation rule). -/
def c5Neighbor : AgentState ℤ :=
  { mkAgent 1 (1, 0) Strategy.defect with score := 2 }

/-! Theorems. -/

/-- C1, counterexample.  One synchronous tick of the implemented scheduler on
the triangle fixture leaves the strategy profile at
[cooperate, cooperate, defect], because agents 0 and 1 decide while reading
agent 2's score as it stood before this tick's scoring (still 0); the spec's
phase-separated tick, in which every score is computed from the pre-tick
configuration before any decision reads any score, yields
[defect, defect, defect].  The implemented tick therefore does not satisfy the
claimed ordering. -/
theorem step_interleaving_cex :
    strategyProfile (model_step triangleSync rnd0 [0, 1, 2]) =
      [Strategy.cooperate, Strategy.cooperate, Strategy.defect] ∧
    strategyProfile (spec_phase_tick triangleSync rnd0) =
      [Strategy.defect, Strategy.defect, Strategy.defect] ∧
    strategyProfile (model_step triangleSync rnd0 [0, 1, 2]) ≠
      strategyProfile (spec_phase_tick triangleSync rnd0) := by
  refine ⟨by decide, by decide, by decide⟩

/-- C3, counterexample.  One asynchronous tick of the triangle fixture under
the activation order [2, 0, 1] changes the strategy of two of the three
agents, but the claim's commit budget is
max(1, round(3 · 0.1)) = 1 agent per tick, all others retaining their current
strategy. -/
theorem async_commit_count_cex :
    ((triangleAsync.agents.zip (model_step triangleAsync rnd0 [2, 0, 1]).agents).filter
      (fun p => p.1.strategy ≠ p.2.strategy)).length = 2 ∧
    max 1 (round ((3 : ℚ) * (1 / 10))).toNat = 1 := by
  constructor
  · decide
  · rw [round_eq]
    norm_num

/-- C8, counterexample.  Calling `play_game` with an `other_agent` that is not
a `PDAgent` raises a ValueError inside the `try` body, and the engine replaces
that error with the default return value (0, 0) instead of propagating it. -/
theorem play_game_swallows_error_cex :
    play_gameE (defaultPayoffMatrix : PayoffDict ℤ) Strategy.cooperate none =
      Except.error "other_agent harus berupa PDAgent" ∧
    play_game (defaultPayoffMatrix : PayoffDict ℤ) Strategy.cooperate none = (0, 0) :=
  ⟨rfl, rfl⟩

/-- C9, confirmed.  `set_payoff_matrix` replaces only the payoff table: the
agent list is unchanged, as are the grid dimensions and mode fields, and in
particular every agent's identity, position, current strategy, pending
strategy and score are identical before and after the call. -/
theorem set_payoff_matrix_frame {α : Type} [LinearOrderedCommRing α]
    (m : ModelState α) (cc cd dc dd : α) :
    (set_payoff_matrix m cc cd dc dd).agents = m.agents ∧
    (set_payoff_matrix m cc cd dc dd).width = m.width ∧
    (set_payoff_matrix m cc cd dc dd).height = m.height ∧
    (set_payoff_matrix m cc cd dc dd).neighborhood_type = m.neighborhood_type ∧
    (set_payoff_matrix m cc cd dc dd).update_type = m.update_type ∧
    (set_payoff_matrix m cc cd dc dd).mutation_rate = m.mutation_rate ∧
    ∀ j, ((set_payoff_matrix m cc cd dc dd).agents.get? j).map
        (fun a => (a.unique_id, a.pos, a.strategy, a.next_strategy, a.score)) =
      (m.agents.get? j).map
        (fun a => (a.unique_id, a.pos, a.strategy, a.next_strategy, a.score)) :=
  ⟨rfl, rfl, rfl, rfl, rfl, rfl, fun _ => rfl⟩

/-- C10, confirmed.  For all ring-valued arguments, `set_payoff_matrix`
unconditionally installs the mirrored table CC=[cc,cc], CD=[cd,dc],
DC=[dc,cd], DD=[dd,dd]; consequently the opponent-side payoffs are fully
determined by the own-side entries (the two sides of every pairing mirror
each other), so an asymmetric game cannot be configured through this
operation. -/
theorem set_payoff_matrix_mirrored {α : Type} [LinearOrderedCommRing α]
    (m : ModelState α) (cc cd dc dd : α) :
    (set_payoff_matrix m cc cd dc dd).payoff_matrix =
      [("CC", [cc, cc]), ("CD", [cd, dc]), ("DC", [dc, cd]), ("DD", [dd, dd])] ∧
    play_game (set_payoff_matrix m cc cd dc dd).payoff_matrix
        Strategy.cooperate (some Strategy.cooperate) = (cc, cc) ∧
    play_game (set_payoff_matrix m cc cd dc dd).payoff_matrix
        Strategy.cooperate (some Strategy.defect) = (cd, dc) ∧
    play_game (set_payoff_matrix m cc cd dc dd).payoff_matrix
        Strategy.defect (some Strategy.cooperate) = (dc, cd) ∧
    play_game (set_payoff_matrix m cc cd dc dd).payoff_matrix
        Strategy.defect (some Strategy.defect) = (dd, dd) :=
  ⟨rfl, rfl, rfl, rfl, rfl⟩

section Lemmas

variable {α : Type} [LinearOrderedCommRing α] {β : Type}

/-- Folding addition of `f` over a list from any accumulator yields the
accumulator plus the sum of the mapped list. -/
lemma foldl_add_map (f : β → α) :
    ∀ (l : List β) (acc : α), l.foldl (fun acc n => acc + f n) acc = acc + (l.map f).sum
  | [], acc => by simp
  | n :: rest, acc => by
    simp [foldl_add_map f rest (acc + f n), add_assoc]

/-- Setting the element at a valid index makes that index read back the new
value. -/
lemma get?_set_self : ∀ (l : List β) (i : ℕ) (a b : β),
    l.get? i = some a → (l.set i b).get? i = some b
  | [], i, a, b, h => by simp at h
  | x :: xs, 0, a, b, h => rfl
  | x :: xs, i + 1, a, b, h => by
    simpa using get?_set_self xs i a b (by simpa using h)

/-- Setting the element at one index leaves every other index unchanged. -/
lemma get?_set_other : ∀ (l : List β) (i j : ℕ) (b : β),
    j ≠ i → (l.set i b).get? j = l.get? j
  | [], i, j, b, h => rfl
  | x :: xs, 0, 0, b, h => absurd rfl h
  | x :: xs, 0, j + 1, b, h => rfl
  | x :: xs, i + 1, 0, b, h => rfl
  | x :: xs, i + 1, j + 1, b, h => by
    simpa using get?_set_other xs i j b (fun hc => h (by rw [hc]))

/-- The best-neighbor scan keeps its accumulator when no scanned score strictly
exceeds the accumulated best score. -/
lemma bestScan_of_not_gt (ns : List (AgentState α)) (p : α × Strategy)
    (h : ∀ n ∈ ns, ¬ p.1 < n.score) :
    ns.foldl (fun p n => if n.score > p.1 then (n.score, n.strategy) else p) p = p := by
  induction ns with
  | nil => rfl
  | cons n rest ih =>
    simp only [List.foldl_cons]
    rw [if_neg (h n (List.mem_cons_self n rest))]
    exact ih (fun x hx => h x (List.mem_cons_of_mem n hx))

/-- The best-neighbor scan stays strictly below any bound dominating both the
initial accumulator and every scanned score. -/
lemma bestScan_lt_bound (ns : List (AgentState α)) (p : α × Strategy) (c : α)
    (hp : p.1 < c) (h : ∀ n ∈ ns, n.score < c) :
    (ns.foldl (fun p n => if n.score > p.1 then (n.score, n.strategy) else p) p).1 < c := by
  induction ns generalizing p with
  | nil => exact hp
  | cons n rest ih =>
    simp only [List.foldl_cons]
    by_cases hc : n.score > p.1
    · rw [if_pos hc]
      exact ih (n.score, n.strategy) (h n (List.mem_cons_self n rest))
        (fun x hx => h x (List.mem_cons_of_mem n hx))
    · rw [if_neg hc]
      exact ih p hp (fun x hx => h x (List.mem_cons_of_mem n hx))

end Lemmas

/-- C5, confirmed.  With mutation rate 0, `determine_next_strategy` returns
the agent's current strategy when it has no neighbors, and also whenever no
neighbor's score strictly exceeds the agent's own; when the scan does find
strictly better neighbors, it adopts the strategy of the first neighbor whose
score strictly dominates everything scanned before it and is never strictly
exceeded afterwards — ties favor the earlier-scanned holder, with the agent
itself as the implicit first candidate. -/
theorem determine_next_keeps_unless_strictly_better {α : Type} [LinearOrderedCommRing α]
    (r : ℚ) (mc : Strategy) (a : AgentState α) (ns : List (AgentState α)) :
    (ns = [] → determine_next_strategy 0 r mc a ns = a.strategy) ∧
    ((∀ n ∈ ns, n.score ≤ a.score) → determine_next_strategy 0 r mc a ns = a.strategy) ∧
    (∀ l n rest, ns = l ++ n :: rest → a.score < n.score →
      (∀ x ∈ l, x.score < n.score) → (∀ x ∈ rest, x.score ≤ n.score) →
      determine_next_strategy 0 r mc a ns = n.strategy) := by
  refine ⟨fun h => by simp [determine_next_strategy, h], ?_, ?_⟩
  · intro h
    by_cases hn : ns = []
    · simp [determine_next_strategy, hn]
    · have hfold : bestFold a ns = (a.score, a.strategy) :=
        bestScan_of_not_gt ns (a.score, a.strategy) (fun n hmem => not_lt.mpr (h n hmem))
      simp [determine_next_strategy, hn, bestFold] at hfold ⊢
      simp [hfold]
  · intro l n rest hsplit hgt hbefore hafter
    have hn : ns ≠ [] := by
      rw [hsplit]; exact List.append_ne_nil_of_right_ne_nil _ (List.cons_ne_nil n rest)
    have hq : (l.foldl (fun p n => if n.score > p.1 then (n.score, n.strategy) else p)
        (a.score, a.strategy)).1 < n.score :=
      bestScan_lt_bound l (a.score, a.strategy) n.score hgt hbefore
    have hfold : bestFold a ns = (n.score, n.strategy) := by
      rw [bestFold, hsplit, List.foldl_append, List.foldl_cons, if_pos hq]
      exact bestScan_of_not_gt rest (n.score, n.strategy)
        (fun x hx => not_lt.mpr (hafter x hx))
    simp [determine_next_strategy, hn, bestFold] at hfold ⊢
    simp [hfold]

/-- C5, witness: a cooperator with score 1 facing a single defecting neighbor
with score 2 adopts the neighbor's strategy. -/
theorem determine_next_keeps_witness :
    determine_next_strategy 0 1 Strategy.cooperate c5Agent [c5Neighbor] = Strategy.defect :=
  (determine_next_keeps_unless_strictly_better 1 Strategy.cooperate c5Agent [c5Neighbor]).2.2
    [] c5Neighbor [] rfl (by decide) (by decide) (by decide)

/-- C6, confirmed.  `interact_with_neighbors` on the agent at index `i` sets
that agent's step score to the sum, over its occupied neighbors, of its own
side of the payoff entry for (own strategy, neighbor strategy) — the score is
reset to 0 first, so nothing else contributes — and leaves every other agent
(in particular every opponent's score) untouched. -/
theorem interact_score_and_frame {α : Type} [LinearOrderedCommRing α]
    (m : ModelState α) (i : ℕ) (a : AgentState α) (h : m.agents.get? i = some a) :
    ((interact_with_neighbors m i).agents.get? i).map (fun x => x.score) =
      some (((get_neighbors m a).map
        (fun n => (play_game m.payoff_matrix a.strategy (some n.strategy)).1)).sum) ∧
    ∀ j, j ≠ i → (interact_with_neighbors m i).agents.get? j = m.agents.get? j := by
  simp only [interact_with_neighbors, h]
  constructor
  · rw [get?_set_self m.agents i a _ h]
    simp [interactScore, foldl_add_map]
  · intro j hj
    exact get?_set_other m.agents i j _ hj

/-- C6, witness: scoring agent 0 of the triangle fixture yields step score
0 + 3 = 3 (sucker's payoff against the defector, reward against the
cooperator). -/
theorem interact_score_witness :
    ((interact_with_neighbors triangleSync 0).agents.get? 0).map (fun x => x.score) =
      some 3 :=
  (interact_score_and_frame triangleSync 0 (mkAgent 0 (0, 0) Strategy.cooperate) rfl).1.trans
    (by decide)

/-- C8, amended.  `play_game` never propagates an error: when its body
succeeds it returns the computed payoff pair, and when its body raises any
error the handler replaces the error with the default return value (0, 0). -/
theorem play_game_defaults_on_error {α : Type} [LinearOrderedCommRing α]
    (pm : PayoffDict α) (s : Strategy) (o : Option Strategy) :
    (∀ v, play_gameE pm s o = Except.ok v → play_game pm s o = v) ∧
    (∀ e, play_gameE pm s o = Except.error e → play_game pm s o = (0, 0)) := by
  unfold play_game
  constructor <;> intro x hx <;> rw [hx]

/-- C8, witness: the ValueError raised for a non-`PDAgent` opponent is
replaced by (0, 0). -/
theorem play_game_defaults_witness :
    play_game (defaultPayoffMatrix : PayoffDict ℤ) Strategy.defect none = (0, 0) :=
  (play_game_defaults_on_error defaultPayoffMatrix Strategy.defect none).2
    "other_agent harus berupa PDAgent" rfl

section PhaseLemmas

variable {α : Type} [LinearOrderedCommRing α] {β γ : Type}

/-- Setting an index to a value with the same image under `f` leaves the
mapped list unchanged. -/
lemma map_set_congr (f : β → γ) :
    ∀ (l : List β) (i : ℕ) (a a' : β), l.get? i = some a → f a' = f a →
      (l.set i a').map f = l.map f
  | [], i, a, a', h, hf => by simp at h
  | x :: xs, 0, a, a', h, hf => by
    simp only [List.get?] at h
    cases h
    simp [hf]
  | x :: xs, i + 1, a, a', h, hf => by
    simp only [List.set, List.map]
    rw [map_set_congr f xs i a a' (by simpa using h) hf]

/-- Scoring one agent does not change the model's update mode. -/
lemma interact_update_type (m : ModelState α) (i : ℕ) :
    (interact_with_neighbors m i).update_type = m.update_type := by
  unfold interact_with_neighbors
  cases m.agents.get? i <;> rfl

/-- Deciding one agent's pending strategy does not change the update mode. -/
lemma determinePhase_update_type (m : ModelState α) (r : ℚ) (mc : Strategy) (i : ℕ) :
    (determinePhase m r mc i).update_type = m.update_type := by
  unfold determinePhase
  cases m.agents.get? i <;> rfl

/-- Committing one agent does not change the update mode. -/
lemma commitAgent_update_type (m : ModelState γ) (i : ℕ) :
    (commitAgent m i).update_type = m.update_type := by
  unfold commitAgent
  cases m.agents.get? i <;> rfl

/-- One agent activation does not change the update mode. -/
lemma agent_step_update_type (m : ModelState α) (rnd : ℕ → ℚ × Strategy) (i : ℕ) :
    (agent_step m rnd i).update_type = m.update_type := by
  unfold agent_step
  by_cases h : m.update_type = "asynchronous"
  · rw [if_pos h, commitAgent_update_type, determinePhase_update_type, interact_update_type]
  · rw [if_neg h, determinePhase_update_type, interact_update_type]

/-- Scoring one agent changes no strategy. -/
lemma strategyProfile_interact (m : ModelState α) (i : ℕ) :
    strategyProfile (interact_with_neighbors m i) = strategyProfile m := by
  unfold interact_with_neighbors strategyProfile
  cases h : m.agents.get? i with
  | none => rfl
  | some a => exact map_set_congr _ m.agents i a _ h rfl

/-- Storing one agent's pending strategy changes no committed strategy. -/
lemma strategyProfile_determinePhase (m : ModelState α) (r : ℚ) (mc : Strategy) (i : ℕ) :
    strategyProfile (determinePhase m r mc i) = strategyProfile m := by
  unfold determinePhase strategyProfile
  cases h : m.agents.get? i with
  | none => rfl
  | some a => exact map_set_congr _ m.agents i a _ h rfl

/-- Outside asynchronous mode, a full agent activation (scoring plus decision)
changes no committed strategy. -/
lemma strategyProfile_agent_step_sync (m : ModelState α) (rnd : ℕ → ℚ × Strategy) (i : ℕ)
    (h : m.update_type = "synchronous") :
    strategyProfile (agent_step m rnd i) = strategyProfile m := by
  unfold agent_step
  rw [if_neg (by rw [h]; decide), strategyProfile_determinePhase, strategyProfile_interact]

end PhaseLemmas

/-- C1, amended.  In synchronous mode the strategy configuration is frozen
throughout the whole scheduler pass — every score computation and every
update decision reads only pre-tick strategies, and all commits happen in a
separate phase after every agent has stepped — so no imitation decision ever
reads a post-commit strategy.  (Scores, by contrast, are not phase-frozen:
the pass interleaves scoring and decision per agent, which is the subject of
the counterexample.) -/
theorem sync_tick_strategy_freeze {α : Type} [LinearOrderedCommRing α]
    (m : ModelState α) (rnd : ℕ → ℚ × Strategy) (order : List ℕ)
    (h : m.update_type = "synchronous") :
    strategyProfile (schedule_step m rnd order) = strategyProfile m ∧
    model_step m rnd order = commitAll (schedule_step m rnd order) := by
  constructor
  · induction order generalizing m with
    | nil => rfl
    | cons i rest ih =>
      calc strategyProfile (schedule_step (agent_step m rnd i) rnd rest)
          = strategyProfile (agent_step m rnd i) :=
            ih (agent_step m rnd i) (by rw [agent_step_update_type, h])
        _ = strategyProfile m := strategyProfile_agent_step_sync m rnd i h
  · unfold model_step
    rw [if_pos h]

/-- C1, witness: the synchronous triangle tick keeps all strategies fixed
during the pass and commits only afterwards. -/
theorem sync_tick_strategy_freeze_witness :
    strategyProfile (schedule_step triangleSync rnd0 [0, 1, 2]) = strategyProfile triangleSync ∧
    model_step triangleSync rnd0 [0, 1, 2] =
      commitAll (schedule_step triangleSync rnd0 [0, 1, 2]) :=
  sync_tick_strategy_freeze triangleSync rnd0 [0, 1, 2] rfl

/-- C3, amended.  In asynchronous mode there is no separate commit phase and
no random commit subset: the tick is exactly the scheduler pass, and every
activated agent commits its freshly computed pending strategy immediately
within its own activation (after its step, its strategy equals its pending
strategy), so all agents commit every tick. -/
theorem async_commits_every_agent {α : Type} [LinearOrderedCommRing α]
    (m : ModelState α) (rnd : ℕ → ℚ × Strategy) (order : List ℕ)
    (h : m.update_type = "asynchronous") :
    model_step m rnd order = schedule_step m rnd order ∧
    ∀ i, ((agent_step m rnd i).agents.get? i).elim True
      (fun a => a.strategy = a.next_strategy) := by
  constructor
  · unfold model_step
    rw [if_neg (by rw [h]; decide)]
  · intro i
    unfold agent_step
    rw [if_pos h]
    unfold commitAgent
    cases hm : (determinePhase (interact_with_neighbors m i) (rnd i).1 (rnd i).2 i).agents.get? i with
    | none =>
      rw [hm]
      trivial
    | some a =>
      rw [get?_set_self _ i a _ hm]
      simp [update_strategy]

/-- C3, witness: the asynchronous triangle tick is the bare scheduler pass,
and agent 0 has committed its pending strategy by the end of its own step. -/
theorem async_commits_every_agent_witness :
    model_step triangleAsync rnd0 [2, 0, 1] = schedule_step triangleAsync rnd0 [2, 0, 1] ∧
    ((agent_step triangleAsync rnd0 0).agents.get? 0).elim True
      (fun a => a.strategy = a.next_strategy) :=
  ⟨(async_commits_every_agent triangleAsync rnd0 [2, 0, 1] rfl).1,
   (async_commits_every_agent triangleAsync rnd0 [2, 0, 1] rfl).2 0⟩

/-- Accumulating `g` over exactly the elements satisfying `p` equals the sum of
`g` over the filtered list. -/
lemma foldl_if_filter_sum {β : Type} (p : β → Prop) [DecidablePred p] (g : β → ℚ) :
    ∀ (l : List β) (acc : ℚ),
      l.foldl (fun acc a => if p a then acc + g a else acc) acc
        = acc + ((l.filter (fun a => p a)).map g).sum
  | [], acc => by simp
  | a :: rest, acc => by
    rw [List.foldl_cons, List.filter_cons]
    by_cases h : p a
    · rw [if_pos h, foldl_if_filter_sum p g rest _, decide_eq_true h, if_pos rfl,
        List.map_cons, List.sum_cons]
      ring
    · rw [if_neg h, foldl_if_filter_sum p g rest acc, decide_eq_false h,
        if_neg (by simp)]

/-- Closed form of the implemented clustering metric: the numerator sums the
cooperating-neighbor fractions of exactly the cooperators that have at least
one neighbor, while the denominator is the number of all cooperators. -/
lemma clustering_formula {α : Type} [LinearOrderedCommRing α]
    (m : ModelState α) :
    get_cooperation_clustering m =
      (if (m.agents.filter (fun a => a.strategy = Strategy.cooperate)).length = 0 then 0
       else (((m.agents.filter (fun a => a.strategy = Strategy.cooperate)).filter
           (fun a => (get_neighbors m a).length > 0)).map
           (fun a => (((get_neighbors m a).filter
               (fun n => n.strategy = Strategy.cooperate)).length : ℚ) /
             ((get_neighbors m a).length : ℚ))).sum /
         ((m.agents.filter (fun a => a.strategy = Strategy.cooperate)).length : ℚ)) := by
  unfold get_cooperation_clustering
  by_cases h : (m.agents.filter (fun a => a.strategy = Strategy.cooperate)).length = 0
  · rw [if_pos h, if_pos h]
  · rw [if_neg h, if_neg h,
      foldl_if_filter_sum (fun a => (get_neighbors m a).length > 0)
        (fun a => (((get_neighbors m a).filter
            (fun n => n.strategy = Strategy.cooperate)).length : ℚ) /
          ((get_neighbors m a).length : ℚ)) _ 0,
      zero_add]

/-- C2, amended.  The implemented clustering coefficient excludes
zero-neighbor cooperators from the numerator only: it equals the sum of
(cooperating neighbors / total neighbors) over the cooperators having at
least one neighbor, divided by the number of all cooperators — so isolated
cooperators are counted as contributing 0, not excluded from the mean. -/
theorem clustering_denominator_counts_isolated {α : Type} [LinearOrderedCommRing α]
    (m : ModelState α) :
    get_cooperation_clustering m =
      (if (m.agents.filter (fun a => a.strategy = Strategy.cooperate)).length = 0 then 0
       else (((m.agents.filter (fun a => a.strategy = Strategy.cooperate)).filter
           (fun a => (get_neighbors m a).length > 0)).map
           (fun a => (((get_neighbors m a).filter
               (fun n => n.strategy = Strategy.cooperate)).length : ℚ) /
             ((get_neighbors m a).length : ℚ))).sum /
         ((m.agents.filter (fun a => a.strategy = Strategy.cooperate)).length : ℚ)) :=
  clustering_formula m

/-- C2, counterexample.  On the cluster fixture (two adjacent cooperators,
each with clustering fraction 1, plus one isolated cooperator) the code
returns (1 + 1) / 3 = 2/3, while the claimed mean over cooperators with at
least one neighbor is (1 + 1) / 2 = 1. -/
theorem clustering_cex :
    get_cooperation_clustering clusterModel = 2 / 3 ∧
    clusteringPerClaim clusterModel = 1 ∧
    get_cooperation_clustering clusterModel ≠ clusteringPerClaim clusterModel := by
  have hl : clusterModel.agents.filter (fun a => a.strategy = Strategy.cooperate) =
      clusterAgents := by decide
  have hl2 : clusterAgents.filter (fun a => (get_neighbors clusterModel a).length > 0) =
      [mkAgent 0 (0, 0) Strategy.cooperate, mkAgent 1 (1, 0) Strategy.cooperate] := by decide
  have n0 : ((get_neighbors clusterModel (mkAgent 0 (0, 0) Strategy.cooperate)).filter
      (fun n => n.strategy = Strategy.cooperate)).length = 1 := by decide
  have d0 : (get_neighbors clusterModel (mkAgent 0 (0, 0) Strategy.cooperate)).length = 1 := by
    decide
  have n1 : ((get_neighbors clusterModel (mkAgent 1 (1, 0) Strategy.cooperate)).filter
      (fun n => n.strategy = Strategy.cooperate)).length = 1 := by decide
  have d1 : (get_neighbors clusterModel (mkAgent 1 (1, 0) Strategy.cooperate)).length = 1 := by
    decide
  have hlen : clusterAgents.length = 3 := by decide
  have hc : get_cooperation_clustering clusterModel = 2 / 3 := by
    rw [clustering_formula clusterModel, hl, hl2, if_neg (by decide)]
    simp only [List.map_cons, List.map_nil, List.sum_cons, List.sum_nil, n0, d0, n1, d1, hlen]
    norm_num
  have hs : clusteringPerClaim clusterModel = 1 := by
    unfold clusteringPerClaim
    rw [hl, hl2]
    simp only [List.map_cons, List.map_nil, List.sum_cons, List.sum_nil, n0, d0, n1, d1,
      List.length_cons, List.length_nil]
    norm_num
  refine ⟨hc, hs, ?_⟩
  rw [hc, hs]
  norm_num

section CreateLemmas

variable {α : Type} [LinearOrderedCommRing α]

/-- The placement loop creates one agent per selected position. -/
lemma placeAgents_length (rate : ℚ) (draws : ℕ → ℚ) :
    ∀ (counter : ℕ) (l : List (ℕ × ℕ)),
      (placeAgents (α := α) rate draws counter l).length = l.length
  | _, [] => rfl
  | counter, p :: rest => by
    simp [placeAgents, placeAgents_length rate draws (counter + 1) rest]

/-- The k-th created agent sits on the k-th selected position with id
`counter + k` and a strategy drawn from the (counter + k)-th Bernoulli draw. -/
lemma placeAgents_get? (rate : ℚ) (draws : ℕ → ℚ) :
    ∀ (counter : ℕ) (l : List (ℕ × ℕ)) (k : ℕ),
      (placeAgents (α := α) rate draws counter l).get? k =
        (l.get? k).map
          (fun p => mkAgent (counter + k) p (bernoulliStrategy rate (draws (counter + k))))
  | counter, [], k => by simp [placeAgents]
  | counter, p :: rest, 0 => by simp [placeAgents]
  | counter, p :: rest, k + 1 => by
    simp only [placeAgents, List.get?]
    rw [placeAgents_get? rate draws (counter + 1) rest k]
    have : counter + 1 + k = counter + (k + 1) := by omega
    rw [this]

/-- The created agents' positions are exactly the selected positions. -/
lemma placeAgents_map_pos (rate : ℚ) (draws : ℕ → ℚ) :
    ∀ (counter : ℕ) (l : List (ℕ × ℕ)),
      (placeAgents (α := α) rate draws counter l).map (fun a => a.pos) = l
  | _, [] => rfl
  | counter, p :: rest => by
    simp [placeAgents, mkAgent, placeAgents_map_pos rate draws (counter + 1) rest]

/-- When every validation passes, `__init__` returns the fully assembled
model. -/
lemma init_ok_form (c : Config α) (ps : List (ℕ × ℕ)) (draws : ℕ → ℚ)
    (h1 : ¬(c.width ≤ 0 ∨ c.height ≤ 0))
    (h2 : 0 ≤ c.density ∧ c.density ≤ 1)
    (h3 : 0 ≤ c.initial_cooperation_rate ∧ c.initial_cooperation_rate ≤ 1)
    (h4 : 0 ≤ c.mutation_rate ∧ c.mutation_rate ≤ 1)
    (h5 : validate_payoff_matrix (c.payoff_matrix.getD defaultPayoffMatrix) = Except.ok ()) :
    SpatialPDModel_init c ps draws = Except.ok
      { width := c.width.toNat,
        height := c.height.toNat,
        neighborhood_type := c.neighborhood_type,
        update_type := c.update_type,
        mutation_rate := c.mutation_rate,
        payoff_matrix := c.payoff_matrix.getD defaultPayoffMatrix,
        agents := create_agents c.width.toNat c.height.toNat c.density
          c.initial_cooperation_rate ps draws } := by
  unfold SpatialPDModel_init
  rw [if_neg h1, if_neg (not_not_intro h2), if_neg (not_not_intro h3),
    if_neg (not_not_intro h4)]
  simp only [h5]

/-- A payoff table that passes validation has all four required keys. -/
lemma validate_ok_lookups {γ : Type} (pm : PayoffDict γ)
    (h : validate_payoff_matrix pm = Except.ok ()) :
    dictLookup pm "CC" ≠ none ∧ dictLookup pm "CD" ≠ none ∧
    dictLookup pm "DC" ≠ none ∧ dictLookup pm "DD" ≠ none := by
  unfold validate_payoff_matrix at h
  repeat' split at h
  all_goals simp_all

end CreateLemmas

/-- C4, counterexample.  Constructing a 3×3 model at density 0.3 creates
`int(9 · 0.3) = 2` agents (Python `int()` truncates), not the claimed
`round(9 · 0.3) = 3`. -/
theorem create_count_cex :
    (SpatialPDModel_init c4Config c4Positions c4Draws).map (fun m => m.agents.length) =
      Except.ok 2 ∧
    round ((3 : ℚ) * 3 * (3 / 10)) = 3 ∧ (2 : ℕ) ≠ 3 := by
  have hnum : num_agents 3 3 (3 / 10) = 2 := by
    unfold num_agents intTrunc
    norm_num
    rfl
  refine ⟨?_, by rw [round_eq]; norm_num, by decide⟩
  rw [init_ok_form c4Config c4Positions c4Draws (by decide)
    (by constructor <;> norm_num [c4Config])
    (by constructor <;> norm_num [c4Config])
    (by constructor <;> norm_num [c4Config]) rfl]
  simp only [Except.map]
  unfold create_agents
  have hw : (c4Config.width.toNat) = 3 := by decide
  have hh : (c4Config.height.toNat) = 3 := by decide
  have hd : c4Config.density = 3 / 10 := rfl
  rw [hw, hh, hd, hnum]
  rw [placeAgents_length]
  rfl

/-- C4, amended.  `_create_agents` places exactly `int(W·H·density)` agents
(truncation toward zero, not rounding): given any shuffled list of distinct
positions long enough, the created agent list has that truncated length, the
agents occupy distinct cells (the first entries of the shuffled list), and the
k-th agent's initial strategy is the Bernoulli draw `draws k` compared against
the configured initial cooperation rate. -/
theorem create_agents_truncation {α : Type} [LinearOrderedCommRing α]
    (W H : ℕ) (density rate : ℚ) (positions : List (ℕ × ℕ)) (draws : ℕ → ℚ)
    (hnodup : positions.Nodup) (hlen : num_agents W H density ≤ positions.length) :
    (create_agents W H density rate positions draws : List (AgentState α)).length
      = num_agents W H density ∧
    ((create_agents W H density rate positions draws : List (AgentState α)).map
      (fun a => a.pos)).Nodup ∧
    ∀ k, (create_agents W H density rate positions draws : List (AgentState α)).get? k =
      ((positions.take (num_agents W H density)).get? k).map
        (fun p => mkAgent k p (bernoulliStrategy rate (draws k))) := by
  refine ⟨?_, ?_, ?_⟩
  · unfold create_agents
    rw [placeAgents_length, List.length_take]
    exact Nat.min_eq_left hlen
  · unfold create_agents
    rw [placeAgents_map_pos]
    exact (List.take_sublist _ _).nodup hnodup
  · intro k
    unfold create_agents
    rw [placeAgents_get? rate draws 0 _ k]
    simp

/-- C4, witness: a 1×1 grid at density 1 creates one agent on the single
cell. -/
theorem create_agents_truncation_witness :
    (create_agents 1 1 1 1 [(0, 0)] c4Draws : List (AgentState ℤ)).length
      = num_agents 1 1 1 ∧
    (create_agents 1 1 1 1 [(0, 0)] c4Draws : List (AgentState ℤ)).get? 0 =
      ((([((0 : ℕ), (0 : ℕ))]).take (num_agents 1 1 1)).get? 0).map
        (fun p => mkAgent 0 p (bernoulliStrategy 1 (c4Draws 0))) :=
  ⟨(create_agents_truncation 1 1 1 1 [(0, 0)] c4Draws (by decide)
      (by simp [num_agents, intTrunc])).1,
   (create_agents_truncation 1 1 1 1 [(0, 0)] c4Draws (by decide)
      (by simp [num_agents, intTrunc])).2.2 0⟩

/-- C7, confirmed.  Construction rejects every invalid configuration with an
error — width or height ≤ 0, density outside [0,1], initial cooperation rate
or mutation rate outside [0,1], or a supplied payoff table missing one of the
keys CC, CD, DC, DD — and since the error is returned instead of a model, no
agent is created and nothing is silently clamped. -/
theorem init_rejects_invalid_config {α : Type} [LinearOrderedCommRing α]
    (c : Config α) (ps : List (ℕ × ℕ)) (draws : ℕ → ℚ)
    (h : c.width ≤ 0 ∨ c.height ≤ 0 ∨ ¬(0 ≤ c.density ∧ c.density ≤ 1) ∨
      ¬(0 ≤ c.initial_cooperation_rate ∧ c.initial_cooperation_rate ≤ 1) ∨
      ¬(0 ≤ c.mutation_rate ∧ c.mutation_rate ≤ 1) ∨
      ∃ pm, c.payoff_matrix = some pm ∧
        (dictLookup pm "CC" = none ∨ dictLookup pm "CD" = none ∨
         dictLookup pm "DC" = none ∨ dictLookup pm "DD" = none)) :
    ∃ e, SpatialPDModel_init c ps draws = Except.error e := by
  unfold SpatialPDModel_init
  by_cases h1 : c.width ≤ 0 ∨ c.height ≤ 0
  · exact ⟨_, by rw [if_pos h1]⟩
  rw [if_neg h1]
  by_cases h2 : ¬(0 ≤ c.density ∧ c.density ≤ 1)
  · exact ⟨_, by rw [if_pos h2]⟩
  rw [if_neg h2]
  by_cases h3 : ¬(0 ≤ c.initial_cooperation_rate ∧ c.initial_cooperation_rate ≤ 1)
  · exact ⟨_, by rw [if_pos h3]⟩
  rw [if_neg h3]
  by_cases h4 : ¬(0 ≤ c.mutation_rate ∧ c.mutation_rate ≤ 1)
  · exact ⟨_, by rw [if_pos h4]⟩
  rw [if_neg h4]
  have hm : ∃ pm, c.payoff_matrix = some pm ∧
      (dictLookup pm "CC" = none ∨ dictLookup pm "CD" = none ∨
       dictLookup pm "DC" = none ∨ dictLookup pm "DD" = none) := by
    rcases h with h | h | h | h | h | h
    · exact absurd (Or.inl h) h1
    · exact absurd (Or.inr h) h1
    · exact absurd h h2
    · exact absurd h h3
    · exact absurd h h4
    · exact h
  obtain ⟨pm, hpm, hmiss⟩ := hm
  simp only [hpm, Option.getD]
  cases hv : validate_payoff_matrix pm with
  | error e =>
    refine ⟨e, ?_⟩
    simp only [hv]
  | ok u =>
    obtain ⟨⟩ := u
    have hks := validate_ok_lookups pm hv
    rcases hmiss with h | h | h | h
    · exact absurd h hks.1
    · exact absurd h hks.2.1
    · exact absurd h hks.2.2.1
    · exact absurd h hks.2.2.2

/-- C7, witness: requesting width 0 is rejected (the result is not a model,
so no agent is created). -/
theorem init_rejects_invalid_config_witness :
    (SpatialPDModel_init c7Config ([] : List (ℕ × ℕ)) c4Draws).map
      (fun _ => (0 : ℕ)) ≠ Except.ok 0 := by
  obtain ⟨e, he⟩ := init_rejects_invalid_config c7Config [] c4Draws (Or.inl (by decide))
  rw [he]
  simp [Except.map]

end SpatialPD
